import Mathlib

set_option maxHeartbeats 1000000

/-
Verification development for the order-processing workflow of the
Production-Ready-Serverless-Workshop repository.

The development shallowly embeds the Lambda handlers that are present in the
repository (place-order, notify-restaurant, seed-orders) as pure Lean
functions over explicit state, with JSON objects represented as association
lists of string key/value pairs, and models the Step Functions order-flow
state machine (whose ASL definition file is referenced by
terraform/step-functions.tf but is not part of the repository sources) from
the specification text.
-/

/-- Lookup of a field in a JSON object represented as an association list of
key/value pairs, mirroring property access on a parsed JSON object. -/
def findField (key : String) : List (String × String) → Option String
  | [] => none
  | (k, v) :: rest => if k = key then some v else findField key rest

/-- An entry of an EventBridge PutEventsCommand, as built by the handlers:
Source, DetailType, Detail (a JSON object, kept as key/value pairs instead of
its serialized string) and EventBusName. -/
structure EventEntry where
  source : String
  detailType : String
  detail : List (String × String)
  eventBusName : String
deriving DecidableEq

/-- The request body of POST /orders after JSON.parse: the handler reads only
the restaurantName property, which is absent (undefined) when the body does
not carry it. -/
structure PlaceOrderBody where
  restaurantName : Option String
deriving DecidableEq

/-- The API Gateway event as consumed by the place-order handler: only the
parsed body is read. -/
structure ApiGatewayEvent where
  body : PlaceOrderBody
deriving DecidableEq

/-- An HTTP response object with statusCode and a JSON body kept as
key/value pairs. -/
structure HttpResponse where
  statusCode : Nat
  body : List (String × String)
deriving DecidableEq

/-- The observable outcome of one place-order invocation: the EventBridge
entries sent and the HTTP response returned. -/
structure PlaceOrderResult where
  entries : List EventEntry
  response : HttpResponse
deriving DecidableEq

/-- JSON.stringify of the object literal with shorthand properties orderId
and restaurantName: when restaurantName is undefined the key is omitted from
the serialized object. -/
def jsonFields (orderId : String) (restaurantName : Option String) :
    List (String × String) :=
  ("orderId", orderId) ::
    (match restaurantName with
     | some r => [("restaurantName", r)]
     | none => [])

/-- Embedding of the place-order Lambda handler (functions place-order
index.mjs): reads restaurantName from the parsed request body, uses the
freshly generated guid as the order id, publishes a single order_placed
entry to the bus, and returns a 200 response whose body is the JSON object
with the orderId. The guid produced by chance.guid() inside the handler is
passed as an explicit argument. -/
def placeOrder_handler (busName guid : String) (event : ApiGatewayEvent) :
    PlaceOrderResult :=
  let restaurantName := event.body.restaurantName
  let orderId := guid
  let putEvent : EventEntry :=
    { source := "big-mouth"
      detailType := "order_placed"
      detail := jsonFields orderId restaurantName
      eventBusName := busName }
  { entries := [putEvent]
    response := { statusCode := 200, body := [("orderId", orderId)] } }

/-- The detail object of an order_placed event as consumed by the
notify-restaurant and seed-orders handlers. -/
structure OrderDetail where
  orderId : String
  restaurantName : String
deriving DecidableEq

/-- An EventBridge event as delivered to an event-triggered Lambda: the
envelope carries source and detail-type besides the detail payload, which is
what the test suite builds and what the idempotency layer hashes. -/
structure NrEvent where
  source : String
  detailType : String
  detail : OrderDetail
deriving DecidableEq

/-- The item written by the seed-orders PutCommand: exactly the attributes
id and restaurantName. -/
structure OrderItem where
  id : String
  restaurantName : String
deriving DecidableEq

/-- The attribute names and values of the PutCommand Item object built by
seed-orders: id and restaurantName only. -/
def orderItemFields (item : OrderItem) : List (String × String) :=
  [("id", item.id), ("restaurantName", item.restaurantName)]

/-- DynamoDB PutItem semantics on the orders table: unconditional write that
replaces any existing item with the same key. -/
def putItem (table : List OrderItem) (item : OrderItem) : List OrderItem :=
  item :: table.filter (fun it => ¬ it.id = item.id)

/-- GetItem on the orders table by the id key attribute. -/
def findItem (id : String) : List OrderItem → Option OrderItem
  | [] => none
  | it :: rest => if it.id = id then some it else findItem id rest

/-- Embedding of the seed-orders core handler (functions seed-orders
index.mjs): extracts the order detail from the EventBridge event and writes
Item with attributes id and restaurantName to the orders table with a plain
PutCommand. The handler has no failure path of its own and writes no status
attribute and no condition expression. -/
def seedOrders_handler (table : List OrderItem) (event : NrEvent) :
    List OrderItem :=
  putItem table
    { id := event.detail.orderId, restaurantName := event.detail.restaurantName }

/-- Follows the words of the spec for the persistence effect of start
(section 4.1): persisting the order fails with ConflictError when an order
with this id already exists, and otherwise stores the order. Stated
separately from the embedding of the source so the two can be compared. -/
def spec_startPersist (table : List OrderItem) (item : OrderItem) :
    Except String (List OrderItem) :=
  match findItem item.id table with
  | some _ => Except.error "ConflictError"
  | none => Except.ok (putItem table item)

/-- The serialization JSON.stringify of the order detail object, with its
two properties in insertion order, used both as the SNS Message and as the
restaurant_notified Detail. -/
def orderMessage (o : OrderDetail) : List (String × String) :=
  [("orderId", o.orderId), ("restaurantName", o.restaurantName)]

/-- A side effect performed by the notify-restaurant handler: an SNS publish
to a topic or an EventBridge PutEvents call. -/
inductive NrEffect
  | snsPublish (topicArn : String) (message : List (String × String))
  | evbPutEvents (entry : EventEntry)
deriving DecidableEq

/-- Embedding of the notify-restaurant core function (functions
notify-restaurant index.mjs): first sends the order detail to the restaurant
SNS topic, then publishes the restaurant_notified event with the same order
payload to the bus, and returns the orderId (used by the idempotency layer
to record the invocation result). The effects are returned as a trace in the
order the awaited calls are made. -/
def notifyRestaurant_core (busName topicArn : String) (event : NrEvent) :
    List NrEffect × String :=
  let order := event.detail
  let snsSendEffect := NrEffect.snsPublish topicArn (orderMessage order)
  let putEventsEffect := NrEffect.evbPutEvents
    { source := "big-mouth"
      detailType := "restaurant_notified"
      detail := orderMessage order
      eventBusName := busName }
  ([snsSendEffect, putEventsEffect], order.orderId)

/-- Lookup of an idempotency record: the DynamoDB persistence layer of
makeHandlerIdempotent (used without an eventKeyJmesPath override) keys
records by a hash of the entire invocation event, modelled here by the event
value itself. -/
def findRecord (event : NrEvent) : List (NrEvent × String) → Option String
  | [] => none
  | (k, v) :: rest => if k = event then some v else findRecord event rest

/-- Embedding of the exported notify-restaurant handler: the core wrapped by
the makeHandlerIdempotent middleware with the DynamoDB persistence store.
On a repeat of an event already recorded it returns the cached result and
performs no side effect; otherwise it runs the core and records the result
under the full event. -/
def notifyRestaurant_handler (busName topicArn : String) (event : NrEvent)
    (store : List (NrEvent × String)) :
    List NrEffect × String × List (NrEvent × String) :=
  match findRecord event store with
  | some cached => ([], cached, store)
  | none =>
    let (effects, result) := notifyRestaurant_core busName topicArn event
    (effects, result, (event, result) :: store)

/-- Sequential invocations of the idempotent notify-restaurant handler,
threading the idempotency store and concatenating the effect traces;
returns the combined trace, the per-invocation results, and the final
store. -/
def runInvocations (busName topicArn : String) :
    List NrEvent → List (NrEvent × String) →
    List NrEffect × List String × List (NrEvent × String)
  | [], store => ([], [], store)
  | e :: rest, store =>
    let (effects, result, store1) := notifyRestaurant_handler busName topicArn e store
    let (effectsRest, results, store2) := runInvocations busName topicArn rest store1
    (effects ++ effectsRest, result :: results, store2)

/-- Recognizer for SNS publish effects. -/
def isSnsPublish : NrEffect → Bool
  | .snsPublish _ _ => true
  | _ => false

/-- Recognizer for restaurant_notified publishes to the bus. -/
def isRestaurantNotified : NrEffect → Bool
  | .evbPutEvents entry => entry.detailType = "restaurant_notified"
  | _ => false

/-- Number of SNS sends in an effect trace. -/
def countSnsSends (trace : List NrEffect) : Nat :=
  (trace.filter isSnsPublish).length

/-- Number of restaurant_notified event publishes in an effect trace. -/
def countNotifiedEvents (trace : List NrEffect) : Nat :=
  (trace.filter isRestaurantNotified).length

/-- Follows the words of the spec for the notification payload (section
4.2): besides order_id and restaurant_name the message carries an encoded
reference — an additional field — allowing the restaurant system to call
back with the continuation token. Stated separately from the embedding of
the source so the two can be compared. -/
def spec_messageHasCallbackRef (message : List (String × String)) : Prop :=
  ∃ p ∈ message, p.1 ≠ "orderId" ∧ p.1 ≠ "restaurantName"

/-- Modelled from the spec: the Step Functions state-machine definition
terraform/state_machines/order-flow.asl.json is referenced by
terraform/step-functions.tf but is not among the repository sources, so the
order statuses of the workflow (spec section 3, Order.status) are modelled
from the specification text and the repository document
docs/step-functions-workflow.md. -/
inductive Status
  | PLACED
  | ACCEPTED
  | REJECTED
  | TIMED_OUT
deriving DecidableEq

/-- Whether a status is terminal: every status except the initial PLACED. -/
def Status.isTerminal : Status → Bool
  | .PLACED => false
  | _ => true

/-- Modelled from the spec: the WorkflowInstance states of the missing
order-flow state machine (spec section 3). -/
inductive WState
  | AWAITING_RESTAURANT_RESPONSE
  | RESOLVING
  | COMPLETED
deriving DecidableEq

/-- Modelled from the spec: the external response to a restaurant
notification (spec section 3, Decision) — a business decision with its
isAccepted flag, a synthetic timeout, or the exhaustion of
technical-failure retries. -/
inductive Resolution
  | business (isAccepted : Bool)
  | timeout
  | retriesExhausted
deriving DecidableEq

/-- Modelled from the spec: the Decision Resolver rules of section 4.3 of
the spec (the Choice state of the missing order-flow state machine):
isAccepted true gives ACCEPTED, isAccepted false gives REJECTED, and a
timeout or exhausted retries give the distinct status TIMED_OUT. -/
def decideStatus : Resolution → Status
  | .business true => .ACCEPTED
  | .business false => .REJECTED
  | .timeout => .TIMED_OUT
  | .retriesExhausted => .TIMED_OUT

/-- Modelled from the spec: the conditional write of the Order Store (spec
section 6): the new status is stored only when the currently stored status
equals the expected one; the boolean reports whether the write landed. -/
def compareAndSetStatus (expected newStatus stored : Status) :
    Status × Bool :=
  if stored = expected then (newStatus, true) else (stored, false)

/-- Modelled from the spec: one WorkflowInstance of the missing order-flow
state machine (spec section 3): its state, the outstanding continuation
token with its validity, and the absolute deadline. -/
structure WorkflowInstance where
  orderId : String
  state : WState
  continuationToken : String
  tokenValid : Bool
  deadline : Nat
deriving DecidableEq

/-- Modelled from the spec: the engine-visible state for one order — the
workflow instance, the stored order status, the successful terminal-status
writes in order, and the status events published (gated on write
success). -/
structure EngineState where
  inst : WorkflowInstance
  orderStatus : Status
  terminalWrites : List Status
  events : List String
deriving DecidableEq

/-- Modelled from the spec: the error signalled by resolve for an unknown
or stale continuation token (spec section 7). -/
inductive ResolveError
  | StaleTokenError
deriving DecidableEq

/-- Modelled from the spec: the event type published for a computed
terminal status (spec sections 4.3 and 6). -/
def eventTypeFor : Status → String
  | .PLACED => "order_placed"
  | .ACCEPTED => "order_accepted"
  | .REJECTED => "order_rejected"
  | .TIMED_OUT => "order_timed_out"

/-- Modelled from the spec: start of a WorkflowInstance (spec section 4.1):
status PLACED, state AWAITING_RESTAURANT_RESPONSE, a fresh valid
continuation token, and deadline now + 600 seconds. -/
def startInstance (orderId token : String) (now : Nat) : EngineState :=
  { inst := { orderId := orderId,
              state := WState.AWAITING_RESTAURANT_RESPONSE,
              continuationToken := token,
              tokenValid := true,
              deadline := now + 600 }
    orderStatus := Status.PLACED
    terminalWrites := []
    events := [] }

/-- Modelled from the spec: the effect of the Decision Resolver given a
computed status (spec section 4.3): the instance is completed and the token
invalidated; the terminal status is persisted through the single
conditional write expecting PLACED, and the status event is published only
when that write lands — the race loser performs no effect. -/
def completeWith (s : EngineState) (target : Status) : EngineState :=
  let write := compareAndSetStatus Status.PLACED target s.orderStatus
  { s with
    inst := { s.inst with state := WState.COMPLETED, tokenValid := false }
    orderStatus := write.1
    terminalWrites :=
      if write.2 then s.terminalWrites ++ [target] else s.terminalWrites
    events :=
      if write.2 then s.events ++ [eventTypeFor target] else s.events }

/-- Modelled from the spec: resolve (spec section 4.1): when the presented
token matches the outstanding valid token of an instance still awaiting the
restaurant response, the instance is driven through RESOLVING to COMPLETED
with the status computed by the Decision Resolver; otherwise nothing is
mutated and StaleTokenError is signalled. -/
def resolve (s : EngineState) (token : String) (d : Resolution) :
    EngineState × Option ResolveError :=
  if s.inst.state = WState.AWAITING_RESTAURANT_RESPONSE ∧
      s.inst.tokenValid = true ∧ token = s.inst.continuationToken then
    (completeWith s (decideStatus d), none)
  else
    (s, some ResolveError.StaleTokenError)

/-- Modelled from the spec: onTimeout (spec section 4.1): when the deadline
has elapsed and the instance is still awaiting the restaurant response, it
is completed with outcome TIMED_OUT; otherwise the call is a no-op. -/
def onTimeout (s : EngineState) (t : Nat) : EngineState :=
  if s.inst.state = WState.AWAITING_RESTAURANT_RESPONSE ∧
      s.inst.deadline ≤ t then
    completeWith s Status.TIMED_OUT
  else
    s

/-- Modelled from the spec: the two asynchronous triggers that can resume a
suspended instance (spec section 5): an inbound resolve call and the timer
firing at an absolute time. -/
inductive WOp
  | resolveOp (token : String) (d : Resolution)
  | timerFire (t : Nat)
deriving DecidableEq

/-- Application of one trigger to the engine state. -/
def applyOp (s : EngineState) : WOp → EngineState
  | .resolveOp token d => (resolve s token d).1
  | .timerFire t => onTimeout s t

/-- A run of the engine over a sequence of triggers. -/
def runOps (s : EngineState) (ops : List WOp) : EngineState :=
  ops.foldl applyOp s

/-- The serialized outcome of the resolve/timeout race: both triggers pass
their stale-read state checks and their conditional writes hit the store in
some order, the store serializing them; first and second are the two target
statuses in commit order. -/
def raceResult (orderId token : String) (now : Nat)
    (first second : Status) : EngineState :=
  completeWith (completeWith (startInstance orderId token now) first) second

/-- The engine state of an instance completed by the timeout path. -/
def timedOutInstance (orderId token : String) (now : Nat) : EngineState :=
  completeWith (startInstance orderId token now) Status.TIMED_OUT

theorem findItem_putItem (table : List OrderItem) (item : OrderItem) :
    findItem item.id (putItem table item) = some item := by
  simp [putItem, findItem]

theorem applyOp_timedOut (orderId token : String) (now : Nat) (op : WOp) :
    applyOp (timedOutInstance orderId token now) op =
      timedOutInstance orderId token now := by
  cases op with
  | resolveOp tok d =>
      simp [applyOp, resolve, timedOutInstance, completeWith, startInstance]
  | timerFire t =>
      simp [applyOp, onTimeout, timedOutInstance, completeWith, startInstance]

theorem runOps_timedOut (orderId token : String) (now : Nat)
    (ops : List WOp) :
    runOps (timedOutInstance orderId token now) ops =
      timedOutInstance orderId token now := by
  induction ops with
  | nil => rfl
  | cons op rest ih =>
      simp [runOps, List.foldl_cons, applyOp_timedOut] at ih ⊢
      simpa [applyOp_timedOut] using ih

theorem applyOp_start_wrong_token (orderId token : String) (now : Nat)
    (tok2 : String) (d : Resolution) (h : tok2 ≠ token) :
    applyOp (startInstance orderId token now) (WOp.resolveOp tok2 d) =
      startInstance orderId token now := by
  simp [applyOp, resolve, startInstance, h]

theorem applyOp_start_timer_early (orderId token : String) (now t : Nat)
    (h : ¬ now + 600 ≤ t) :
    applyOp (startInstance orderId token now) (WOp.timerFire t) =
      startInstance orderId token now := by
  simp [applyOp, onTimeout, startInstance, h]

theorem applyOp_start_timer_fires (orderId token : String) (now t : Nat)
    (h : now + 600 ≤ t) :
    applyOp (startInstance orderId token now) (WOp.timerFire t) =
      timedOutInstance orderId token now := by
  simp [applyOp, onTimeout, startInstance, timedOutInstance, h]

/-- C8: for every placement request, the handler returns statusCode 200 with
a body that is exactly the JSON object carrying the generated order id; the
response is computed from the request and the generated guid alone, with no
dependence on any workflow state, so the placer is never blocked on the
restaurant decision. -/
theorem place_order_returns_200_with_order_id (busName guid : String)
    (event : ApiGatewayEvent) :
    (placeOrder_handler busName guid event).response.statusCode = 200 ∧
    (placeOrder_handler busName guid event).response.body =
      [("orderId", guid)] :=
  ⟨rfl, rfl⟩

/-- C9 counterexample: a request whose parsed body has no restaurantName
property still publishes an order_placed event, and its detail carries only
the orderId field — the published payload does not contain restaurant_name,
contradicting the claim that every published order_placed event carries at
minimum both fields. -/
theorem order_placed_missing_restaurant_name :
    (placeOrder_handler "bus" "G1" ⟨⟨none⟩⟩).entries =
      [{ source := "big-mouth", detailType := "order_placed",
         detail := [("orderId", "G1")], eventBusName := "bus" }] ∧
    findField "restaurantName" [("orderId", "G1")] = none := by
  constructor
  · rfl
  · decide

/-- C9 amended: every order_placed event published for a request whose body
does carry a restaurantName has a detail payload containing exactly the
fields orderId and restaurantName with the expected values. -/
theorem order_placed_payload_fields (busName guid rn : String) :
    (placeOrder_handler busName guid ⟨⟨some rn⟩⟩).entries =
      [{ source := "big-mouth", detailType := "order_placed",
         detail := [("orderId", guid), ("restaurantName", rn)],
         eventBusName := busName }] ∧
    findField "orderId" [("orderId", guid), ("restaurantName", rn)] =
      some guid ∧
    findField "restaurantName"
      [("orderId", guid), ("restaurantName", rn)] = some rn := by
  refine ⟨rfl, ?_, ?_⟩ <;> simp [findField]

/-- C10: the order id in the HTTP 200 response body equals the order id in
the detail of the published order_placed event, and both are exactly the
guid generated inside the handler, for every request body — no field of the
request can choose or influence the id. -/
theorem order_id_fresh_and_consistent (busName guid : String)
    (event : ApiGatewayEvent) :
    findField "orderId" (placeOrder_handler busName guid event).response.body =
      some guid ∧
    (placeOrder_handler busName guid event).entries.map
      (fun en => findField "orderId" en.detail) = [some guid] := by
  constructor
  · simp [placeOrder_handler, findField]
  · cases h : event.body.restaurantName <;>
      simp [placeOrder_handler, jsonFields, findField, h]

/-- C3 counterexample: with an order with id O1 already stored, running the
seed-orders handler for a second order_placed event with the same id
completes normally and silently replaces the stored item — the spec-side
start persistence would instead have failed with ConflictError — and the
item the code stores has no status attribute at all (so no PLACED status is
written either). -/
theorem start_conflict_counterexample :
    findItem "O1" [{ id := "O1", restaurantName := "Old" }] =
      some { id := "O1", restaurantName := "Old" } ∧
    seedOrders_handler [{ id := "O1", restaurantName := "Old" }]
        { source := "big-mouth", detailType := "order_placed",
          detail := { orderId := "O1", restaurantName := "Fangtasia" } } =
      [{ id := "O1", restaurantName := "Fangtasia" }] ∧
    spec_startPersist [{ id := "O1", restaurantName := "Old" }]
        { id := "O1", restaurantName := "Fangtasia" } =
      Except.error "ConflictError" ∧
    findField "status"
      (orderItemFields { id := "O1", restaurantName := "Fangtasia" }) =
      none := by
  refine ⟨by decide, by decide, ?_, by decide⟩
  rfl

/-- C3 amended: order persistence is an unconditional put performed by the
seed-orders consumer: after handling an event the stored item for that order
id is exactly the fresh item (an existing item with the same id is
overwritten rather than rejected with ConflictError), the stored attributes
are exactly id and restaurantName, and no status attribute (hence no PLACED
marker) is written; the order id itself is generated inside the place-order
handler rather than by the caller. -/
theorem seed_orders_put_overwrites_without_status (table : List OrderItem)
    (event : NrEvent) :
    findItem event.detail.orderId (seedOrders_handler table event) =
      some { id := event.detail.orderId,
             restaurantName := event.detail.restaurantName } ∧
    (orderItemFields { id := event.detail.orderId,
                       restaurantName := event.detail.restaurantName }).map
      Prod.fst = ["id", "restaurantName"] ∧
    findField "status"
      (orderItemFields { id := event.detail.orderId,
                         restaurantName := event.detail.restaurantName }) =
      none := by
  refine ⟨findItem_putItem table _, by simp [orderItemFields], ?_⟩
  simp [orderItemFields, findField]

/-- C4 counterexample: two invocations carrying the same order_id but
differing in any other part of the event (here the restaurantName in the
detail) are not deduplicated: the idempotency key is a hash of the whole
invocation event, not the order_id, so both invocations send to SNS and
both publish restaurant_notified — two sends and two publishes for the same
order, contradicting the claim that any second invocation for the same
order returns the cached result. -/
theorem notify_dedup_not_keyed_on_order_id :
    ({ source := "big-mouth", detailType := "order_placed",
       detail := { orderId := "O1", restaurantName := "Fangtasia" } } :
        NrEvent).detail.orderId =
      ({ source := "big-mouth", detailType := "order_placed",
         detail := { orderId := "O1", restaurantName := "Mulates" } } :
          NrEvent).detail.orderId ∧
    countSnsSends
      (runInvocations "bus" "topic"
        [{ source := "big-mouth", detailType := "order_placed",
           detail := { orderId := "O1", restaurantName := "Fangtasia" } },
         { source := "big-mouth", detailType := "order_placed",
           detail := { orderId := "O1", restaurantName := "Mulates" } }]
        []).1 = 2 ∧
    countNotifiedEvents
      (runInvocations "bus" "topic"
        [{ source := "big-mouth", detailType := "order_placed",
           detail := { orderId := "O1", restaurantName := "Fangtasia" } },
         { source := "big-mouth", detailType := "order_placed",
           detail := { orderId := "O1", restaurantName := "Mulates" } }]
        []).1 = 2 := by
  refine ⟨rfl, by decide, by decide⟩

/-- C4 amended: invoking the notify-restaurant handler twice with the
identical invocation event, starting from an empty idempotency store,
performs exactly one SNS send and exactly one restaurant_notified publish;
the second invocation returns the cached result of the first (both results
are the order id) without re-executing either side effect. -/
theorem notify_idempotent_identical_event (busName topicArn : String)
    (event : NrEvent) :
    countSnsSends (runInvocations busName topicArn [event, event] []).1 = 1 ∧
    countNotifiedEvents
      (runInvocations busName topicArn [event, event] []).1 = 1 ∧
    (runInvocations busName topicArn [event, event] []).2.1 =
      [event.detail.orderId, event.detail.orderId] := by
  refine ⟨?_, ?_, ?_⟩ <;>
    simp [runInvocations, notifyRestaurant_handler, notifyRestaurant_core,
      findRecord, countSnsSends, countNotifiedEvents, isSnsPublish,
      isRestaurantNotified]

/-- C5 counterexample: for a concrete invocation the notification payload
sent to the restaurant topic is exactly the order detail, with the fields
orderId and restaurantName and nothing else: it contains no additional
field, hence no encoded reference allowing a callback with a continuation
token, contradicting that part of the claim (the handler receives no token
to embed). -/
theorem notify_payload_has_no_callback_token :
    (notifyRestaurant_core "bus" "topic"
        { source := "big-mouth", detailType := "order_placed",
          detail := { orderId := "O1", restaurantName := "Fangtasia" } }).1 =
      [NrEffect.snsPublish "topic"
        [("orderId", "O1"), ("restaurantName", "Fangtasia")],
       NrEffect.evbPutEvents
        { source := "big-mouth", detailType := "restaurant_notified",
          detail := [("orderId", "O1"), ("restaurantName", "Fangtasia")],
          eventBusName := "bus" }] ∧
    ¬ spec_messageHasCallbackRef
        [("orderId", "O1"), ("restaurantName", "Fangtasia")] := by
  constructor
  · rfl
  · simp [spec_messageHasCallbackRef]

/-- C5 amended: for every invocation the handler performs its side effects
in this order: first the SNS send to the restaurant topic whose payload is
the order detail carrying orderId and restaurantName, and only then the
restaurant_notified publish with the same order payload; the invocation
result is the order id. No continuation token appears in the payload
because the handler receives none. -/
theorem notify_effect_order (busName topicArn : String) (event : NrEvent) :
    (notifyRestaurant_core busName topicArn event).1 =
      [NrEffect.snsPublish topicArn (orderMessage event.detail),
       NrEffect.evbPutEvents
        { source := "big-mouth", detailType := "restaurant_notified",
          detail := orderMessage event.detail, eventBusName := busName }] ∧
    findField "orderId" (orderMessage event.detail) =
      some event.detail.orderId ∧
    findField "restaurantName" (orderMessage event.detail) =
      some event.detail.restaurantName ∧
    (notifyRestaurant_core busName topicArn event).2 =
      event.detail.orderId := by
  refine ⟨rfl, ?_, ?_, rfl⟩ <;> simp [orderMessage, findField]

theorem runOps_start_timeout (orderId token : String) (now : Nat) :
    ∀ ops : List WOp,
      (∀ tok2 d, WOp.resolveOp tok2 d ∈ ops → tok2 ≠ token) →
      (∃ t, WOp.timerFire t ∈ ops ∧ now + 600 ≤ t) →
      runOps (startInstance orderId token now) ops =
        timedOutInstance orderId token now := by
  intro ops
  induction ops with
  | nil =>
      intro _ hfire
      obtain ⟨t, ht, _⟩ := hfire
      simp at ht
  | cons op rest ih =>
      intro hres hfire
      cases op with
      | resolveOp tok2 d =>
          have hne : tok2 ≠ token := hres tok2 d (List.mem_cons_self _ _)
          have hstep := applyOp_start_wrong_token orderId token now tok2 d hne
          simp only [runOps, List.foldl_cons] at ih ⊢
          rw [hstep]
          refine ih (fun tok3 d3 hmem => hres tok3 d3 (List.mem_cons_of_mem _ hmem)) ?_
          obtain ⟨t, ht, hle⟩ := hfire
          rcases List.mem_cons.mp ht with h | h
          · simp at h
          · exact ⟨t, h, hle⟩
      | timerFire t =>
          by_cases hle : now + 600 ≤ t
          · have hstep := applyOp_start_timer_fires orderId token now t hle
            simp only [runOps, List.foldl_cons]
            rw [hstep]
            have := runOps_timedOut orderId token now rest
            simpa [runOps] using this
          · have hstep := applyOp_start_timer_early orderId token now t hle
            simp only [runOps, List.foldl_cons] at ih ⊢
            rw [hstep]
            refine ih (fun tok3 d3 hmem => hres tok3 d3 (List.mem_cons_of_mem _ hmem)) ?_
            obtain ⟨t2, ht2, hle2⟩ := hfire
            rcases List.mem_cons.mp ht2 with h | h
            · have : t2 = t := by simpa using h
              exact absurd (this ▸ hle2) hle
            · exact ⟨t2, h, hle2⟩

/-- C1: racing resolve and onTimeout for the same instance, the two
conditional terminal-status writes are serialized by the store; whichever
commits first wins: afterwards the instance is COMPLETED, the stored status
is the winning terminal status (one of ACCEPTED, REJECTED, TIMED_OUT),
exactly one terminal write landed and exactly one status event was
published — the loser finds the stored status no longer PLACED and is a
no-op — and no further trigger of any kind changes the state again. -/
theorem terminal_status_write_exactly_once (orderId token : String)
    (now : Nat) (first second : Status) (h1 : first.isTerminal = true)
    (h2 : second.isTerminal = true) :
    (raceResult orderId token now first second).inst.state =
      WState.COMPLETED ∧
    (raceResult orderId token now first second).orderStatus = first ∧
    (raceResult orderId token now first second).orderStatus.isTerminal =
      true ∧
    (raceResult orderId token now first second).terminalWrites = [first] ∧
    (raceResult orderId token now first second).events =
      [eventTypeFor first] ∧
    ∀ op : WOp,
      applyOp (raceResult orderId token now first second) op =
        raceResult orderId token now first second := by
  have hfirst : ¬ first = Status.PLACED := by
    cases first <;> simp_all [Status.isTerminal]
  have key : raceResult orderId token now first second =
      { inst := { orderId := orderId, state := WState.COMPLETED,
                  continuationToken := token, tokenValid := false,
                  deadline := now + 600 }
        orderStatus := first
        terminalWrites := [first]
        events := [eventTypeFor first] } := by
    simp [raceResult, completeWith, startInstance, compareAndSetStatus,
      hfirst]
  refine ⟨?_, ?_, ?_, ?_, ?_, ?_⟩
  · rw [key]
  · rw [key]
  · rw [key]; exact h1
  · rw [key]
  · rw [key]
  · intro op
    cases op with
    | resolveOp tok2 d => simp [applyOp, resolve, key]
    | timerFire t => simp [applyOp, onTimeout, key]

/-- C1 witness: the race instantiated with a resolve that accepted and a
timeout firing, the accept write committing first. -/
theorem terminal_status_write_exactly_once_witness :
    Status.isTerminal Status.ACCEPTED = true ∧
    Status.isTerminal Status.TIMED_OUT = true ∧
    ((raceResult "O1" "T" 0 Status.ACCEPTED Status.TIMED_OUT).inst.state =
        WState.COMPLETED ∧
      (raceResult "O1" "T" 0 Status.ACCEPTED Status.TIMED_OUT).orderStatus =
        Status.ACCEPTED ∧
      (raceResult "O1" "T" 0 Status.ACCEPTED
          Status.TIMED_OUT).orderStatus.isTerminal = true ∧
      (raceResult "O1" "T" 0 Status.ACCEPTED
          Status.TIMED_OUT).terminalWrites = [Status.ACCEPTED] ∧
      (raceResult "O1" "T" 0 Status.ACCEPTED Status.TIMED_OUT).events =
        [eventTypeFor Status.ACCEPTED] ∧
      ∀ op : WOp,
        applyOp (raceResult "O1" "T" 0 Status.ACCEPTED Status.TIMED_OUT)
            op =
          raceResult "O1" "T" 0 Status.ACCEPTED Status.TIMED_OUT) :=
  ⟨by decide, by decide,
    terminal_status_write_exactly_once "O1" "T" 0 Status.ACCEPTED
      Status.TIMED_OUT (by decide) (by decide)⟩

/-- C2: the Decision Resolver maps a decision with isAccepted true to
ACCEPTED, a decision with isAccepted false to REJECTED, and both a timeout
resolution and exhausted technical-failure retries to the distinct status
TIMED_OUT, which is not REJECTED; resolving or timing out a fresh instance
stores exactly these statuses. -/
theorem decision_resolver_mapping (orderId token : String) (now : Nat) :
    decideStatus (Resolution.business true) = Status.ACCEPTED ∧
    decideStatus (Resolution.business false) = Status.REJECTED ∧
    decideStatus Resolution.timeout = Status.TIMED_OUT ∧
    decideStatus Resolution.retriesExhausted = Status.TIMED_OUT ∧
    Status.TIMED_OUT ≠ Status.REJECTED ∧
    (resolve (startInstance orderId token now) token
        (Resolution.business true)).1.orderStatus = Status.ACCEPTED ∧
    (resolve (startInstance orderId token now) token
        (Resolution.business false)).1.orderStatus = Status.REJECTED ∧
    (resolve (startInstance orderId token now) token
        Resolution.retriesExhausted).1.orderStatus = Status.TIMED_OUT ∧
    (onTimeout (startInstance orderId token now) (now + 600)).orderStatus =
      Status.TIMED_OUT := by
  refine ⟨rfl, rfl, rfl, rfl, by decide, ?_, ?_, ?_, ?_⟩ <;>
    simp [resolve, onTimeout, startInstance, completeWith,
      compareAndSetStatus, decideStatus]

/-- C6: an instance whose run contains no resolve call bearing its token
ends, once the timer has fired at or after the deadline, completed with
status TIMED_OUT; the deadline is exactly entry time plus 600 seconds, the
timed-out terminal write happens exactly once over the whole run, and a
timer firing strictly before the deadline of any instance is a no-op. -/
theorem timeout_backstop (orderId token : String) (now : Nat)
    (ops : List WOp)
    (hres : ∀ tok2 d, WOp.resolveOp tok2 d ∈ ops → tok2 ≠ token)
    (hfire : ∃ t, WOp.timerFire t ∈ ops ∧ now + 600 ≤ t) :
    runOps (startInstance orderId token now) ops =
      timedOutInstance orderId token now ∧
    (timedOutInstance orderId token now).orderStatus = Status.TIMED_OUT ∧
    (timedOutInstance orderId token now).inst.state = WState.COMPLETED ∧
    (timedOutInstance orderId token now).terminalWrites =
      [Status.TIMED_OUT] ∧
    (startInstance orderId token now).inst.deadline = now + 600 ∧
    ∀ (s : EngineState) (t : Nat), t < s.inst.deadline →
      onTimeout s t = s := by
  refine ⟨runOps_start_timeout orderId token now ops hres hfire, ?_, ?_, ?_,
    rfl, ?_⟩
  · simp [timedOutInstance, completeWith, startInstance,
      compareAndSetStatus]
  · simp [timedOutInstance, completeWith, startInstance,
      compareAndSetStatus]
  · simp [timedOutInstance, completeWith, startInstance,
      compareAndSetStatus]
  · intro s t ht
    have hneg : ¬ (s.inst.state = WState.AWAITING_RESTAURANT_RESPONSE ∧
        s.inst.deadline ≤ t) := by
      rintro ⟨_, hle⟩
      omega
    unfold onTimeout
    rw [if_neg hneg]

/-- C6 witness: an instance started at time 0 that receives only the timer
firing exactly at its 600-second deadline. -/
theorem timeout_backstop_witness :
    (∀ tok2 d, WOp.resolveOp tok2 d ∈ [WOp.timerFire 600] → tok2 ≠ "T") ∧
    (∃ t, WOp.timerFire t ∈ [WOp.timerFire 600] ∧ 0 + 600 ≤ t) ∧
    (runOps (startInstance "O1" "T" 0) [WOp.timerFire 600] =
        timedOutInstance "O1" "T" 0 ∧
      (timedOutInstance "O1" "T" 0).orderStatus = Status.TIMED_OUT ∧
      (timedOutInstance "O1" "T" 0).inst.state = WState.COMPLETED ∧
      (timedOutInstance "O1" "T" 0).terminalWrites = [Status.TIMED_OUT] ∧
      (startInstance "O1" "T" 0).inst.deadline = 0 + 600 ∧
      ∀ (s : EngineState) (t : Nat), t < s.inst.deadline →
        onTimeout s t = s) :=
  ⟨by simp, ⟨600, by simp, by decide⟩,
    timeout_backstop "O1" "T" 0 [WOp.timerFire 600] (by simp)
      ⟨600, by simp, by decide⟩⟩

/-- C7: a resolve call whose token does not match the outstanding valid
token of an instance still awaiting the restaurant response — because the
token is unknown or the instance has already resolved or timed out —
mutates nothing and returns StaleTokenError, and invoking it again yields
the same outcome, so resolve is safe to call any number of times for the
same token. -/
theorem stale_token_no_mutation (s : EngineState) (token : String)
    (d : Resolution)
    (h : ¬ (s.inst.state = WState.AWAITING_RESTAURANT_RESPONSE ∧
            s.inst.tokenValid = true ∧
            token = s.inst.continuationToken)) :
    resolve s token d = (s, some ResolveError.StaleTokenError) ∧
    resolve (resolve s token d).1 token d =
      (s, some ResolveError.StaleTokenError) := by
  have h1 : resolve s token d = (s, some ResolveError.StaleTokenError) := by
    unfold resolve
    rw [if_neg h]
  refine ⟨h1, ?_⟩
  rw [h1]
  exact h1

/-- C7 witness: presenting the original token again after the instance was
already resolved with ACCEPTED. -/
theorem stale_token_no_mutation_witness :
    (¬ ((completeWith (startInstance "O1" "T" 0)
            Status.ACCEPTED).inst.state =
          WState.AWAITING_RESTAURANT_RESPONSE ∧
        (completeWith (startInstance "O1" "T" 0)
            Status.ACCEPTED).inst.tokenValid = true ∧
        "T" = (completeWith (startInstance "O1" "T" 0)
            Status.ACCEPTED).inst.continuationToken)) ∧
    (resolve (completeWith (startInstance "O1" "T" 0) Status.ACCEPTED) "T"
        (Resolution.business true) =
      (completeWith (startInstance "O1" "T" 0) Status.ACCEPTED,
        some ResolveError.StaleTokenError) ∧
      resolve
        (resolve (completeWith (startInstance "O1" "T" 0) Status.ACCEPTED)
            "T" (Resolution.business true)).1 "T"
        (Resolution.business true) =
      (completeWith (startInstance "O1" "T" 0) Status.ACCEPTED,
        some ResolveError.StaleTokenError)) :=
  ⟨by decide,
    stale_token_no_mutation
      (completeWith (startInstance "O1" "T" 0) Status.ACCEPTED) "T"
      (Resolution.business true) (by decide)⟩
